import Mathlib

/-!
Shallow embedding of the trollcast server (src/trollcast/newserver.py):
the HRPT frame parser, the Holder, the lazy mirror reference
(`_MirrorGetter`) and the request manager, together with theorems
settling the specification claims about them.

Machine integers are modelled as `Nat` with explicit `% 2^16` (the frames
are streams of big-endian 16-bit words, held in numpy `>u2` arrays) and
`% 256` for bytes.  Python `datetime` values are modelled as milliseconds
on the proleptic Gregorian timeline (`Int`); `timedelta` values are
millisecond counts.  Fallible Python code (`KeyError`, `ValueError`,
`TypeError`) is modelled with `Except Unit`.
-/

/-! ## Wire values and message data

Client requests and holder payloads carry string values and datetime
values.  A `Value.t v` models a well-formed ISO-8601 time string whose
parse (posttroll `strp_isoformat`) yields the instant `v`; `Value.s`
models any other string; `Value.n` models a number (the elevation field).
-/

inductive Value where
  | s (v : String)
  | t (v : Int)
  | n (v : Nat)
  deriving DecidableEq, Repr

/-- The data field of a reply received from the mirror peer, as
`_MirrorGetter` stores it in `self._data`.  `RData.none` models Python
`None` (the initial value of `self._data`, and the data of a data-less
reply). -/
inductive RData where
  | none
  | bytes (b : List Nat)
  | dict (kvs : List (String × Value))
  deriving DecidableEq, Repr

/-- Source: `_MirrorGetter`: a lazy remote reference.  `cache` is `self._data`;
it starts as `RData.none` and is assigned the reply's data on the first
fetch.  The request socket and the shared lock are not part of the pure
state; the request that would be sent on the socket is returned
explicitly by `MirrorGetter.get_data`. -/
structure MirrorGetter where
  sat : String
  key : Int
  cache : RData
  deriving DecidableEq, Repr

/-- A scanline payload held by the `Holder`: either owned bytes (added by
the file watcher) or a lazy remote reference (added by the mirror
watcher). -/
inductive Payload where
  | owned (b : List Nat)
  | remote (g : MirrorGetter)
  deriving DecidableEq, Repr

/-- Source: `true` exactly when the payload is actual byte data rather than an
unmaterialized remote handle. -/
def Payload.isBytes : Payload → Bool
  | .owned _ => true
  | .remote _ => false

/-- The data field of a posttroll message in the request/reply protocol. -/
inductive MsgData where
  | nodata
  | dict (kvs : List (String × Value))
  | payload (p : Payload)
  deriving DecidableEq, Repr

/-- A posttroll message: subject, type, data and the binary flag. -/
structure Message where
  subject : String
  msgtype : String
  data : MsgData
  binary : Bool
  deriving DecidableEq, Repr

/-- Source: `message.data[k]`: dictionary lookup on the data field.  A missing
key raises `KeyError`, and subscripting a non-dict raises `TypeError`;
both are modelled as `Except.error ()`. -/
def MsgData.getKey : MsgData → String → Except Unit Value
  | .dict kvs, k =>
    match kvs.find? (fun kv => kv.1 == k) with
    | some kv => .ok kv.2
    | Option.none => .error ()
  | _, _ => .error ()

/-- Source: posttroll `strp_isoformat`: parses a time string.  A `Value.t v`
(a well-formed ISO time string) parses to `v`; anything else raises
(`ValueError`/`TypeError`), modelled as `Option.none`. -/
def strpIsoformat : Value → Option Int
  | .t v => some v
  | _ => Option.none

/-! ## Calendar arithmetic

`datetime(year, 1, 1)` on the millisecond timeline.  `daysBeforeYear`
counts proleptic Gregorian days before Jan 1 of the year, matching
Python's `datetime.toordinal` up to a constant offset. -/

def daysBeforeYear (y : Int) : Int :=
  365 * (y - 1) + (y - 1) / 4 - (y - 1) / 100 + (y - 1) / 400

def msPerDay : Int := 86400000

/-- Source: `datetime(y, 1, 1)` as milliseconds. -/
def jan1ms (y : Int) : Int := daysBeforeYear y * msPerDay

/-! ## The HRPT parser (`class HRPT`) -/

/-- Source: `HRPT.line_size = 11090 * 2`. -/
def HRPT.lineSize : Nat := 11090 * 2

/-- Source: `HRPT.hrpt_sync`: the 100-word aux sync pattern. -/
def HRPT.hrpt_sync : List Nat :=
  [994, 1011, 437, 701, 644, 277, 452, 467, 833, 224,
   694, 990, 220, 409, 1010, 403, 654, 105, 62, 867,
   75, 149, 320, 725, 668, 581, 866, 109, 166, 941,
   1022, 59, 989, 182, 461, 197, 751, 359, 704, 66,
   387, 238, 850, 746, 473, 573, 282, 6, 212, 169, 623,
   761, 979, 338, 249, 448, 331, 911, 853, 536, 323,
   703, 712, 370, 30, 900, 527, 977, 286, 158, 26, 796,
   705, 100, 432, 515, 633, 77, 65, 489, 186, 101, 406,
   560, 148, 358, 742, 113, 878, 453, 501, 882, 525,
   925, 377, 324, 589, 594, 496, 972]

/-- Source: `HRPT.hrpt_sync_start`: the 6-word frame sync pattern. -/
def HRPT.hrpt_sync_start : List Nat := [644, 367, 860, 413, 527, 149]

/-- Source: `HRPT.satellites`: the satellite id table. -/
def HRPT.satellites : List (Nat × String) :=
  [(7, "NOAA 15"), (3, "NOAA 16"), (13, "NOAA 18"), (15, "NOAA 19")]

/-- Source: `self.satellites[code]` as an `Option` (a missing code raises
`KeyError` at the call site). -/
def HRPT.satTable (code : Nat) : Option String :=
  (HRPT.satellites.find? (fun p => p.1 == code)).map (fun p => p.2)

/-- A byte buffer: the raw data string handed to `HRPT.read`.  `byte i`
is the i-th byte (taken modulo 256) for `i < len`. -/
structure Buffer where
  len : Nat
  byte : Nat → Nat

/-- Big-endian 16-bit word `w` of frame `f`, as numpy reads the `>u2`
fields of the frame dtype. -/
def wordAt (b : Buffer) (f w : Nat) : Nat :=
  (b.byte (f * HRPT.lineSize + 2 * w) % 256) * 256 +
    b.byte (f * HRPT.lineSize + 2 * w + 1) % 256

/-- In the frame dtype, `frame_sync` occupies words 0-5. -/
def HRPT.frameSyncOk (b : Buffer) (f : Nat) : Bool :=
  (List.range 6).all (fun j => wordAt b f j == HRPT.hrpt_sync_start.getD j 0)

/-- In the frame dtype, `aux_sync` occupies words 10990-11089. -/
def HRPT.auxSyncOk (b : Buffer) (f : Nat) : Bool :=
  (List.range 100).all (fun j => wordAt b f (10990 + j) == HRPT.hrpt_sync.getD j 0)

/-- Source: `(line["id"]["id"] >> 3) & 15`: the id word is word 6 of the frame. -/
def HRPT.satCode (b : Buffer) (f : Nat) : Nat :=
  (wordAt b f 6 >>> 3) &&& 15

/-- The `msecs` accumulator of `HRPT.timecode`, computed step by step
on numpy `uint16` scalars (the elements of the `>u2` timecode field).
Every arithmetic step stays `uint16` under numpy's promotion rules, so
`((127) & word) * 1024` and the later `msecs *= 1024` wrap modulo
65536:
`m1 = ((127 & w1) * 1024) mod 2^16`, `m2 = (m1 + (w2 & 1023)) mod 2^16`,
`m3 = (m2 * 1024) mod 2^16`, `msecs = (m3 + (w3 & 1023)) mod 2^16`.
(`msecsWord_eq` below proves the closed form this collapses to.) -/
def HRPT.msecsWord (w1 w2 w3 : Nat) : Nat :=
  let m1 := ((127 &&& w1) * 1024) % 65536
  let m2 := (m1 + (w2 &&& 1023)) % 65536
  let m3 := (m2 * 1024) % 65536
  (m3 + (w3 &&& 1023)) % 65536

/-- Source: `HRPT.timecode(tc_array)` as a millisecond count.

The source returns `timedelta(days=int(day/2 - 1),
milliseconds=int(msecs))`, where `day` is the numpy `uint16` word 0,
`day/2 - 1` is computed in `uint16` arithmetic (so `day < 2` wraps to
65535) and `msecs` is the `uint16` accumulation `HRPT.msecsWord`. -/
def HRPT.timecodeMs (w0 w1 w2 w3 : Nat) : Nat :=
  let day := w0 % 65536
  ((day / 2 + 65535) % 65536) * 86400000 + HRPT.msecsWord w1 w2 w3

/-- The timecode delta of frame `f`: the `timecode` field occupies words
8-11 of the frame dtype. -/
def HRPT.frameDelta (b : Buffer) (f : Nat) : Nat :=
  HRPT.timecodeMs (wordAt b f 8) (wordAt b f 9) (wordAt b f 10) (wordAt b f 11)

/-- The per-line timestamp logic of `HRPT.read`:
`utctime = datetime(year, 1, 1) + days`, and if `utctime > now` then
`utctime = datetime(year - 1, 1, 1) + days`. -/
def HRPT.lineUtc (nowYear nowMs : Int) (delta : Nat) : Int :=
  let utc := jan1ms nowYear + (delta : Int)
  if utc > nowMs then jan1ms (nowYear - 1) + (delta : Int) else utc

/-- One scanline tuple `(satellite, utctime, elevation, frame bytes)`
produced by `HRPT.read`.  The elevation, `random.uniform(0, 90)` in the
source, is injected as a function of the accepted-line counter. -/
structure Scanline where
  satellite : String
  utctime : Int
  elevation : Nat
  payload : List Nat
  deriving DecidableEq, Repr

/-- Source: `data[lo:hi]`: Python slice of the buffer (clamped at the length). -/
def byteSlice (b : Buffer) (lo hi : Nat) : List Nat :=
  (List.range (min hi b.len - min lo b.len)).map
    (fun j => b.byte (min lo b.len + j) % 256)

/-- The loop body of `HRPT.read`, iterating over the parsed frames.
`fuel` is the number of frames still to process, `f` the current frame
index, `i` the source's counter of accepted lines (which is also used as
the slice index for the line's bytes and, at the end, yields the
consumed count `self.line_size * i`).  A garbage line (`aux_sync` or
`frame_sync` mismatch) is skipped without touching `i`; an unknown
satellite code raises `KeyError` (`Except.error ()`). -/
def HRPT.readFrom (elev : Nat → Nat) (nowYear nowMs : Int) (b : Buffer) :
    Nat → Nat → Nat → Except Unit (List Scanline × Nat)
  | 0, _, i => .ok ([], HRPT.lineSize * i)
  | fuel + 1, f, i =>
    let utc := HRPT.lineUtc nowYear nowMs (HRPT.frameDelta b f)
    if ¬ (HRPT.auxSyncOk b f && HRPT.frameSyncOk b f) then
      HRPT.readFrom elev nowYear nowMs b fuel (f + 1) i
    else
      match HRPT.satTable (HRPT.satCode b f) with
      | Option.none => .error ()
      | some sat =>
        match HRPT.readFrom elev nowYear nowMs b fuel (f + 1) (i + 1) with
        | .error e => .error e
        | .ok (rest, consumed) =>
          .ok (⟨sat, utc, elev i,
                byteSlice b (HRPT.lineSize * i) (HRPT.lineSize * (i + 1))⟩ :: rest,
               consumed)

/-- Source: `HRPT.read(data)`: parses `len(data)/line_size` frames and returns
the accepted scanlines together with `self.line_size * i` consumed
bytes.  `nowYear`/`nowMs` are the year and instant of the single
`datetime.utcnow()` call at the start of the read. -/
def HRPT.read (elev : Nat → Nat) (nowYear nowMs : Int) (b : Buffer) :
    Except Unit (List Scanline × Nat) :=
  HRPT.readFrom elev nowYear nowMs b (b.len / HRPT.lineSize) 0 0

/-! ## The Holder (`class Holder`)

`self._data` is a two-level dict `satellite -> timestamp -> (elevation,
payload)`, modelled as association lists (Python dict keys are unique;
the operations below preserve first-match lookup semantics).  The mutex
serializes the operations and plays no role in the sequential model. -/

abbrev SatMap := List (Int × (Nat × Payload))

structure Holder where
  data : List (String × SatMap)
  origin : String
  deriving DecidableEq, Repr

/-- First-match association-list lookup: the Python dict lookup. -/
def aLookup {α β : Type} [DecidableEq α] : List (α × β) → α → Option β
  | [], _ => Option.none
  | (a, b) :: tl, k => if a = k then some b else aLookup tl k

/-- Source: `Holder.get(sat, key) = self._data[sat][key]`; a missing satellite or
timestamp raises `KeyError`. -/
def Holder.get (h : Holder) (sat : String) (key : Int) :
    Except Unit (Nat × Payload) :=
  match aLookup h.data sat with
  | Option.none => .error ()
  | some satmap =>
    match aLookup satmap key with
    | Option.none => .error ()
    | some v => .ok v

/-- Source: `Holder.get_data(sat, key) = self.get(sat, key)[1]`. -/
def Holder.get_data (h : Holder) (sat : String) (key : Int) :
    Except Unit Payload :=
  (h.get sat key).map (fun v => v.2)

/-- Source: `Holder.delete(sat, key)`: `del self._data[sat][key]`.  Deleting a
missing satellite or timestamp raises `KeyError`. -/
def Holder.delete (h : Holder) (sat : String) (key : Int) :
    Except Unit Holder :=
  match aLookup h.data sat with
  | Option.none => .error ()
  | some satmap =>
    match aLookup satmap key with
    | Option.none => .error ()
    | some _ =>
      .ok { h with
            data := (sat, satmap.filter (fun q => !decide (q.1 = key))) ::
                      h.data.filter (fun p => !decide (p.1 = sat)) }

/-- The `have` announcement `Holder.have` emits after an `add`. -/
def Holder.haveMsg (subj : String) (h : Holder) (sat : String) (key : Int)
    (elevation : Nat) : Message :=
  ⟨subj, "have",
   .dict [("satellite", .s sat), ("timecode", .t key),
          ("elevation", .n elevation), ("origin", .s h.origin)], false⟩

/-- Source: `Holder.add(sat, key, elevation, data)`:
`self._data.setdefault(sat, {})[key] = elevation, data`, then announce.
Returns the new holder and the emitted `have` message.  No check of any
kind is made on `key`. -/
def Holder.add (subj : String) (h : Holder) (sat : String) (key : Int)
    (elevation : Nat) (payload : Payload) : Holder × Message :=
  let satmap := (aLookup h.data sat).getD []
  let satmap := (key, (elevation, payload)) :: satmap.filter (fun q => !decide (q.1 = key))
  ({ h with data := (sat, satmap) :: h.data.filter (fun p => !decide (p.1 = sat)) },
   Holder.haveMsg subj h sat key elevation)

/-! ## The lazy remote reference (`class _MirrorGetter`) -/

/-- The request `_MirrorGetter.get_data` sends:
`Message(subject, 'request', {"type": "scanline", "satellite": sat,
"utctime": key})`. -/
def mirrorRequest (subj : String) (g : MirrorGetter) : Message :=
  ⟨subj, "request",
   .dict [("type", .s "scanline"), ("satellite", .s g.sat),
          ("utctime", .t g.key)], false⟩

/-- A reply received on the mirror request socket. -/
structure RepMessage where
  msgtype : String
  data : RData
  deriving DecidableEq, Repr

/-- Source: `_MirrorGetter.get_data`.  If `self._data is not None` the cached
value is returned at once.  Otherwise the scanline request is sent (the
returned `Option Message` is `some` exactly when the socket was used),
the reply is received, and `self._data = rep.data` is stored and
returned — with no inspection of the reply's type (the source carries a
`FIXME` to that effect). -/
def MirrorGetter.get_data (subj : String) (g : MirrorGetter)
    (reply : RepMessage) : RData × MirrorGetter × Option Message :=
  match g.cache with
  | .none => (reply.data, { g with cache := reply.data },
              some (mirrorRequest subj g))
  | d => (d, g, Option.none)

/-- The reply-type dispatch the specification prescribes for
materialization. -/
inductive FetchError where
  | RemoteMissing
  | ProtocolError
  deriving DecidableEq, Repr

/-- Modelled from the spec: the materialization step of §4.8 (the
dispatch on the reply type is absent from the source).  A `scanline`
reply stores its bytes in the cache; a `missing` reply fails with
`RemoteMissing`; any other reply fails with `ProtocolError`; a set cache
is returned without network I/O. -/
def specMirrorGetData (subj : String) (g : MirrorGetter)
    (reply : RepMessage) :
    Except FetchError (RData × MirrorGetter × Option Message) :=
  match g.cache with
  | .none =>
    if reply.msgtype = "scanline" then
      .ok (reply.data, { g with cache := reply.data },
           some (mirrorRequest subj g))
    else if reply.msgtype = "missing" then .error .RemoteMissing
    else .error .ProtocolError
  | d => .ok (d, g, Option.none)

deriving instance DecidableEq for Except

/-- The claim that `_MirrorGetter.get_data` agrees with the
specification's reply-type dispatch at a given state and reply. -/
def mirrorAgreesWithSpec (subj : String) (g : MirrorGetter)
    (reply : RepMessage) : Prop :=
  Except.ok (MirrorGetter.get_data subj g reply) = specMirrorGetData subj g reply

instance (subj : String) (g : MirrorGetter) (reply : RepMessage) :
    Decidable (mirrorAgreesWithSpec subj g reply) :=
  decEq _ _

/-- Source: `_MirrorGetter.__str__` is `return self.get_data()`. -/
def MirrorGetter.strOf (subj : String) (g : MirrorGetter)
    (reply : RepMessage) : RData × MirrorGetter × Option Message :=
  MirrorGetter.get_data subj g reply

/-- Python `str(x)`: the value `__str__` returns must be a string
(`bytes` in this protocol); anything else raises `TypeError`. -/
def RData.asStr : RData → Option (List Nat)
  | .bytes b => some b
  | _ => Option.none

/-- Source: `_MirrorGetter.__add__`: `return str(self) + other`. -/
def MirrorGetter.addOp (subj : String) (g : MirrorGetter)
    (reply : RepMessage) (other : List Nat) :
    Option (List Nat) × MirrorGetter × Option Message :=
  let r := MirrorGetter.strOf subj g reply
  ((r.1.asStr).map (fun s => s ++ other), r.2.1, r.2.2)

/-- Source: `_MirrorGetter.__radd__`: `return other + str(self)`. -/
def MirrorGetter.raddOp (subj : String) (other : List Nat)
    (g : MirrorGetter) (reply : RepMessage) :
    Option (List Nat) × MirrorGetter × Option Message :=
  let r := MirrorGetter.strOf subj g reply
  ((r.1.asStr).map (fun s => other ++ s), r.2.1, r.2.2)

/-! ## The request manager (`class RequestManager`) -/

/-- The bytes of a string, for the text header of an encoded message. -/
def strBytes (s : String) : List Nat := s.data.map Char.toNat

/-- Modelled from the spec: the posttroll text header of a message (§6).
The serializer itself lives in the external posttroll library; the spec
only fixes that a binary-flagged message is the text header followed by
the raw payload bytes. -/
def headerBytes (m : Message) : List Nat :=
  strBytes m.subject ++ strBytes " " ++ strBytes m.msgtype

/-- Modelled from the spec: `str(message)` for a binary-flagged scanline
reply (§6) — the text header concatenated with the payload coerced to a
string.  For an owned payload the bytes are appended directly; for a
lazy remote reference the concatenation invokes
`_MirrorGetter.__str__`/`__radd__`, which is `get_data()`.  Returns the
wire bytes (none on `TypeError`) and the request sent to the mirror, if
any. -/
def encodeBinaryMsg (m : Message) (reply : RepMessage) :
    Option (List Nat) × Option Message :=
  match m.data with
  | .payload (.owned b) => (some (headerBytes m ++ b), Option.none)
  | .payload (.remote g) =>
    let r := MirrorGetter.raddOp m.subject (headerBytes m) g reply
    (r.1, r.2.2)
  | _ => (Option.none, Option.none)

/-- Source: `RequestManager.send`: `self._socket.send(str(message))`.  For a
binary message the serialization materializes a remote payload; for a
text message only the header model is sent. -/
def RequestManager.send (m : Message) (reply : RepMessage) :
    Option (List Nat) × Option Message :=
  if m.binary then encodeBinaryMsg m reply
  else (some (headerBytes m), Option.none)

/-- Source: `RequestManager.pong`. -/
def RequestManager.pong (subj station : String) : Message :=
  ⟨subj, "pong", .dict [("station", .s station)], false⟩

/-- Source: `Message(subject, "missing")`. -/
def missingMsg (subj : String) : Message := ⟨subj, "missing", .nodata, false⟩

/-- Source: `Message(subject, "ack")`. -/
def ackMsg (subj : String) : Message := ⟨subj, "ack", .nodata, false⟩

/-- Source: `Message(subject, "unknown")`. -/
def unknownMsg (subj : String) : Message := ⟨subj, "unknown", .nodata, false⟩

/-- Source: `Message(subject, "error")`: the reply pre-initialized before the
dispatch. -/
def errorMsg (subj : String) : Message := ⟨subj, "error", .nodata, false⟩

/-- The holder lookup of the scanline handler, with the satellite value
taken from the wire: a non-string satellite value never equals a stored
string key, so the dict lookup raises `KeyError`. -/
def Holder.getDataV (h : Holder) (satv : Value) (key : Int) :
    Except Unit Payload :=
  match satv with
  | .s sat => h.get_data sat key
  | _ => .error ()

/-- Source: `RequestManager.scanline`.  `sat = message.data["satellite"]` and
`key = strp_isoformat(message.data["utctime"])` run outside the
`try`, so their failures propagate (`Except.error`); only the holder's
`KeyError` is caught and turned into a `missing` reply. -/
def RequestManager.scanline (subj : String) (h : Holder) (m : Message) :
    Except Unit Message :=
  match m.data.getKey "satellite" with
  | .error _ => .error ()
  | .ok satv =>
    match m.data.getKey "utctime" with
    | .error _ => .error ()
    | .ok utv =>
      match strpIsoformat utv with
      | Option.none => .error ()
      | some key =>
        match h.getDataV satv key with
        | .ok p => .ok ⟨subj, "scanline", .payload p, true⟩
        | .error _ => .ok (missingMsg subj)

/-- The dispatch chain of `RequestManager.run`'s `try` block.  The
`elif` conditions evaluate `message.data["type"]` only after the type
matches, so that subscripting failure (`Except.error`) reproduces the
`KeyError`/`TypeError` the source would raise. -/
def RequestManager.dispatch (subj station : String) (h : Holder)
    (m : Message) : Except Unit Message :=
  if m.msgtype = "ping" then .ok (RequestManager.pong subj station)
  else if m.msgtype = "request" then
    match m.data.getKey "type" with
    | .error _ => .error ()
    | .ok v =>
      if v = Value.s "scanline" then RequestManager.scanline subj h m
      else .ok (unknownMsg subj)
  else if m.msgtype = "notice" then
    match m.data.getKey "type" with
    | .error _ => .error ()
    | .ok v =>
      if v = Value.s "scanline" then .ok (ackMsg subj)
      else .ok (unknownMsg subj)
  else .ok (unknownMsg subj)

/-- Processing of one received request: the reply is pre-initialized to
the `error` message, the dispatch runs inside `try`, and the `finally`
clause sends whatever `reply` holds.  With no `except` clause, an
exception escapes `run` after the send: the second component is `true`
exactly when the serving loop terminates. -/
def RequestManager.handleOne (subj station : String) (h : Holder)
    (m : Message) : Message × Bool :=
  match RequestManager.dispatch subj station h m with
  | .ok r => (r, false)
  | .error _ => (errorMsg subj, true)

/-- The serving loop of `RequestManager.run` over a list of incoming
requests.  `Option.none` stands for a received frame on which
`Message(rawstr=...)` raises: the exception occurs before the `try`
block, so no reply is sent and the loop terminates.  A decoded message
is handled by `handleOne`; its reply is sent, and the loop continues
only if no exception escaped. -/
def RequestManager.serveLoop (subj station : String) (h : Holder) :
    List (Option Message) → List Message
  | [] => []
  | Option.none :: _ => []
  | some m :: rest =>
    let r := RequestManager.handleOne subj station h m
    r.1 :: (if r.2 then [] else RequestManager.serveLoop subj station h rest)

/-! ## Concrete inputs

Synthetic frames and server states used by the counterexamples and
witnesses below. -/

/-- Word `w` of a synthetic HRPT frame with valid sync patterns, id word
`idWord` and timecode words `day w1 w2 w3`; every other word is zero. -/
def mkFrameWord (idWord day w1 w2 w3 : Nat) (w : Nat) : Nat :=
  if w < 6 then HRPT.hrpt_sync_start.getD w 0
  else if w == 6 then idWord
  else if w == 8 then day
  else if w == 9 then w1
  else if w == 10 then w2
  else if w == 11 then w3
  else if 10990 ≤ w then HRPT.hrpt_sync.getD (w - 10990) 0
  else 0

/-- Big-endian byte stream of a word sequence. -/
def bytesOfWords (wf : Nat → Nat) : Nat → Nat :=
  fun i => if i % 2 == 0 then wf (i / 2) / 256 % 256 else wf (i / 2) % 256

/-- A constant-zero elevation stub (the injected collaborator). -/
def elev0 : Nat → Nat := fun _ => 0

/-- A single all-zero frame: both sync patterns fail. -/
def zeroBuf : Buffer := ⟨22180, fun _ => 0⟩

/-- A single frame with valid sync patterns whose id word is 0, a
satellite code absent from the table. -/
def unkSatBuf : Buffer := ⟨22180, bytesOfWords (mkFrameWord 0 360 0 0 0)⟩

/-- A valid frame with satellite code 7 (id word 56 = 7 << 3) and
timecode day 360 (179 days into the year). -/
def goodBuf : Buffer := ⟨22180, bytesOfWords (mkFrameWord 56 360 0 0 0)⟩

/-- Two frames: an all-zero garbage frame followed by a valid code-7
frame. -/
def twoFrameBuf : Buffer :=
  ⟨44360, fun i => if i < 22180 then 0
                   else bytesOfWords (mkFrameWord 56 360 0 0 0) (i - 22180)⟩

/-- A valid code-7 frame whose timecode day word is 800, i.e. a delta of
399 days. -/
def futureBuf : Buffer := ⟨22180, bytesOfWords (mkFrameWord 56 800 0 0 0)⟩

/-- A clock instant 200 days into 2026 (mid-July). -/
def now200 : Int := jan1ms 2026 + 200 * msPerDay

/-- A clock instant 9 days into 2026 (January 10). -/
def now9 : Int := jan1ms 2026 + 9 * msPerDay

/-- The timestamp `futureBuf`'s frame receives after the previous-year
fallback: Jan 1 of 2025 plus 399 days, i.e. February 2026. -/
def futureTs : Int := jan1ms 2025 + 399 * msPerDay

/-- The scanline `goodBuf` parses into under the clock `now200`. -/
def goodScan : Scanline :=
  ⟨"NOAA 15", HRPT.lineUtc 2026 now200 (HRPT.frameDelta goodBuf 0), elev0 0,
   byteSlice goodBuf (HRPT.lineSize * 0) (HRPT.lineSize * 1)⟩

/-- An unmaterialized lazy reference to scanline ("NOAA 15", 0). -/
def g0 : MirrorGetter := ⟨"NOAA 15", 0, RData.none⟩

/-- A holder with one mirror entry whose payload is the unmaterialized
handle `g0`. -/
def h0 : Holder := ⟨[("NOAA 15", [(0, (5, Payload.remote g0))])], "origin"⟩

/-- A holder with one locally owned scanline. -/
def hOwned : Holder := ⟨[("NOAA 18", [(5, (1, Payload.owned [1, 2, 3]))])], "origin"⟩

/-- The empty holder. -/
def hEmpty : Holder := ⟨[], "origin"⟩

/-- A reply of type missing, carrying no data. -/
def missingReply : RepMessage := ⟨"missing", RData.none⟩

/-- A scanline reply carrying two bytes. -/
def scanReply : RepMessage := ⟨"scanline", RData.bytes [9, 9]⟩

/-- A ping request. -/
def pingMsg : Message := ⟨"subj", "ping", .nodata, false⟩

/-- A decodable request of type request whose data dict has no "type"
entry: evaluating `message.data["type"]` raises `KeyError`. -/
def badReq : Message := ⟨"subj", "request", .dict [], false⟩

/-! ## Supporting lemmas -/

/-- The consumed count `HRPT.read` reports is always a multiple of the
line size (it is `line_size * i` for the accepted-line counter `i`). -/
theorem readFrom_consumed_dvd (elev : Nat → Nat) (y nowMs : Int) (b : Buffer) :
    ∀ fuel f i e c, HRPT.readFrom elev y nowMs b fuel f i = .ok (e, c) →
      HRPT.lineSize ∣ c := by
  intro fuel
  induction fuel with
  | zero =>
    intro f i e c hok
    simp only [HRPT.readFrom] at hok
    cases hok
    exact Dvd.intro i rfl
  | succ n ih =>
    intro f i e c hok
    simp only [HRPT.readFrom] at hok
    split at hok
    · exact ih (f + 1) i e c hok
    · split at hok
      · cases hok
      · split at hok
        · cases hok
        · next heq =>
          cases hok
          exact ih (f + 1) (i + 1) _ _ heq

/-- A buffer shorter than one frame parses to no scanlines and zero
consumed bytes. -/
theorem read_short (elev : Nat → Nat) (y nowMs : Int) (b : Buffer)
    (h : b.len < HRPT.lineSize) :
    HRPT.read elev y nowMs b = .ok ([], 0) := by
  unfold HRPT.read
  rw [Nat.div_eq_of_lt h]
  simp [HRPT.readFrom]

/-! ## Claim theorems -/

/-- Claim C1 (code bug shown on the code): the claim states that a frame
failing the integrity check, or carrying an unknown satellite code, is
discarded but its 22,180 bytes are still counted in the consumed-byte
count.  In the source the `continue` for a garbage line skips the
`i += 1`, so `self.line_size * i` does not advance past the garbage
frame (first conjunct: a single garbage frame yields consumed = 0, not
22,180), and an unknown satellite code raises `KeyError` out of
`HRPT.read` instead of skip-and-consume (second conjunct). -/
theorem claim_C1_bug :
    HRPT.read elev0 2026 now200 zeroBuf = .ok ([], 0) ∧
    HRPT.read elev0 2026 now200 unkSatBuf = .error () := by
  constructor
  · rfl
  · rfl

/-- Claim C2 (code bug shown on the code): the claim states that the
consumed-byte count always equals `floor(n / 22180) * 22180`.  For the
44,360-byte buffer `twoFrameBuf` (a garbage frame followed by a valid
one) that formula gives 44,360, but `HRPT.read` consumes only 22,180
bytes, because the skipped garbage line does not advance the counter
`i`.  (The multiple-of-22,180 part and the short-buffer case do hold:
see `readFrom_consumed_dvd` and `read_short`.) -/
theorem claim_C2_bug :
    (HRPT.read elev0 2026 now200 twoFrameBuf).map (fun p => p.2) = .ok 22180 ∧
    twoFrameBuf.len / HRPT.lineSize * HRPT.lineSize = 44360 := by
  constructor
  · rfl
  · rfl

/-- Claim C7 (code bug shown on the code): the claim states that a
decode failure or an internal handler error is answered with an `error`
reply, logged, and the serving loop continues.  In the source the
decode happens before the `try` and the dispatch has no `except`
clause: an undecodable request (first conjunct, `Option.none`) produces
no reply at all and the loop terminates — the following ping is never
answered; a handler error (second conjunct, a request whose data lacks
a "type" entry) does send the pre-initialized `error` reply, but the
exception then escapes `run` and the following ping is never
answered. -/
theorem claim_C7_bug :
    RequestManager.serveLoop "subj" "st" h0 [Option.none, some pingMsg] = [] ∧
    RequestManager.serveLoop "subj" "st" h0 [some badReq, some pingMsg] =
      [errorMsg "subj"] := by
  constructor
  · rfl
  · rfl

/-- Claim C4, counterexample: the claim states `get_data` never returns
the unmaterialized handle itself, but on a holder whose entry is an
unmaterialized mirror reference, `Holder.get_data` returns exactly that
handle (the source returns `self.get(sat, key)[1]` with no
materialization). -/
theorem claim_C4_counterexample :
    Holder.get_data h0 "NOAA 15" 0 = .ok (Payload.remote g0) ∧
    (Payload.remote g0).isBytes = false := by
  constructor
  · rfl
  · rfl

/-- Claim C4, amended: `Holder.get_data(sat, ts)` returns the stored
payload-source verbatim — the owned bytes for a local scanline, but for
a mirror entry the lazy handle itself, unmaterialized; no fetch and no
`RemoteFetchFailed` can occur inside `get_data`. -/
theorem claim_C4_amended (h : Holder) (sat : String) (key : Int)
    (el : Nat) (p : Payload) (hget : h.get sat key = .ok (el, p)) :
    h.get_data sat key = .ok p := by
  simp [Holder.get_data, hget, Except.map]

/-- Witness for `claim_C4_amended` at a concrete holder with an owned
payload. -/
theorem claim_C4_witness :
    Holder.get_data hOwned "NOAA 18" 5 = .ok (Payload.owned [1, 2, 3]) :=
  claim_C4_amended hOwned "NOAA 18" 5 1 (Payload.owned [1, 2, 3]) (by decide)

/-- Claim C5, counterexample: the claim states that a reply of type
missing fails the materialization with `RemoteMissing` (and any other
non-scanline reply with `ProtocolError`).  The source inspects no reply
type at all, so at an unmaterialized reference and a missing reply it
disagrees with the specification's dispatch. -/
theorem claim_C5_counterexample : ¬ mirrorAgreesWithSpec "subj" g0 missingReply := by
  decide

/-- Claim C5, amended: on first materialization (`self._data is None`)
the scanline request is sent and the reply's data is stored in the
cache and returned regardless of the reply's type — a missing reply
stores `None` and leaves the reference unmaterialized instead of
raising; once a non-`None` value is cached, every later call returns
that same value with no socket traffic. -/
theorem claim_C5_amended (subj : String) (g : MirrorGetter)
    (r r' : RepMessage) (hc : g.cache = RData.none) :
    MirrorGetter.get_data subj g r =
      (r.data, { g with cache := r.data }, some (mirrorRequest subj g)) ∧
    (r.data ≠ RData.none →
      MirrorGetter.get_data subj { g with cache := r.data } r' =
        (r.data, { g with cache := r.data }, Option.none)) := by
  obtain ⟨gs, gk, gc⟩ := g
  simp only [MirrorGetter.cache] at hc
  subst hc
  constructor
  · rfl
  · intro hnn
    cases hd : r.data with
    | none => exact absurd hd hnn
    | bytes b => simp [MirrorGetter.get_data, hd]
    | dict kvs => simp [MirrorGetter.get_data, hd]

/-- Witness for `claim_C5_amended`: the unmaterialized `g0` fetched with
a scanline reply caches its bytes; a second call returns them with no
request even if the socket would now answer differently. -/
theorem claim_C5_witness :
    MirrorGetter.get_data "subj" g0 scanReply =
      (scanReply.data, { g0 with cache := scanReply.data },
       some (mirrorRequest "subj" g0)) ∧
    (scanReply.data ≠ RData.none →
      MirrorGetter.get_data "subj" { g0 with cache := scanReply.data } missingReply =
        (scanReply.data, { g0 with cache := scanReply.data }, Option.none)) :=
  claim_C5_amended "subj" g0 scanReply missingReply rfl

/-- Claim C8, counterexample: the claim states `delete` is silent when
the key is absent, but `del self._data[sat][key]` on the empty holder
raises `KeyError` — in particular it is not the claimed no-op. -/
theorem claim_C8_counterexample :
    Holder.delete hEmpty "NOAA 15" 0 = .error () ∧
    Holder.delete hEmpty "NOAA 15" 0 ≠ .ok hEmpty := by
  constructor
  · rfl
  · decide


/-- Filtering one key out of an association list empties that key's
lookup and leaves every other lookup unchanged. -/
theorem aLookup_filterNe {α β : Type} [DecidableEq α]
    (l : List (α × β)) (k0 k : α) :
    aLookup (l.filter (fun q => !decide (q.1 = k0))) k =
      if k = k0 then Option.none else aLookup l k := by
  induction l with
  | nil => by_cases hs : k = k0 <;> simp [aLookup, hs]
  | cons hd tl ih =>
    obtain ⟨a, b⟩ := hd
    by_cases hs : a = k0
    · subst hs
      by_cases hs' : k = a
      · subst hs'
        simp [aLookup, List.filter_cons, ih]
      · have hsa : ¬ a = k := fun hh => hs' hh.symm
        simp [aLookup, List.filter_cons, hs', hsa, ih]
    · by_cases hs' : k = a
      · subst hs'
        simp [aLookup, List.filter_cons, hs, (hs : ¬ k = k0)]
      · have hsa : ¬ a = k := fun hh => hs' hh.symm
        simp [aLookup, List.filter_cons, hs, hsa, ih]

/-- Claim C8, amended: `Holder.delete(sat, ts)` removes the entry when
it is present (leaving every other entry's lookup unchanged), but when
the key is absent — unknown satellite or unknown timestamp — it raises
`KeyError` instead of being silent. -/
theorem claim_C8_amended (h : Holder) (sat : String) (key : Int) :
    (h.get sat key = .error () → h.delete sat key = .error ()) ∧
    (∀ el p, h.get sat key = .ok (el, p) →
      ∃ h', h.delete sat key = .ok h' ∧
        ∀ sat' key', h'.get sat' key' =
          (if sat' = sat ∧ key' = key then .error ()
           else h.get sat' key')) := by
  constructor
  · intro hget
    cases hsm : aLookup h.data sat with
    | none => simp [Holder.delete, hsm]
    | some satmap =>
      cases hv : aLookup satmap key with
      | none => simp [Holder.delete, hsm, hv]
      | some v => simp [Holder.get, hsm, hv] at hget
  · intro el p hget
    cases hsm : aLookup h.data sat with
    | none => simp [Holder.get, hsm] at hget
    | some satmap =>
      cases hv : aLookup satmap key with
      | none => simp [Holder.get, hsm, hv] at hget
      | some v =>
        refine ⟨⟨(sat, satmap.filter (fun q => !decide (q.1 = key))) ::
                   h.data.filter (fun p => !decide (p.1 = sat)), h.origin⟩,
                by simp [Holder.delete, hsm, hv], ?_⟩
        intro sat' key'
        by_cases hs' : sat' = sat
        · subst hs'
          by_cases hk' : key' = key
          · subst hk'
            simp [Holder.get, aLookup, aLookup_filterNe, hsm]
          · simp [Holder.get, aLookup, aLookup_filterNe, hsm, hk']
        · have hss : ¬ sat = sat' := fun hh => hs' hh.symm
          simp [Holder.get, aLookup, aLookup_filterNe, hss, hs']

/-- Witness for `claim_C8_amended`: deleting the present entry of
`hOwned` succeeds, and deleting from the empty holder raises. -/
theorem claim_C8_witness :
    Holder.delete hOwned "NOAA 18" 5 ≠ .error () ∧
    Holder.delete hEmpty "NOAA 16" 7 = .error () := by
  constructor
  · obtain ⟨h', hh, -⟩ :=
      (claim_C8_amended hOwned "NOAA 18" 5).2 1 (Payload.owned [1, 2, 3]) (by decide)
    rw [hh]
    intro hc
    cases hc
  · exact (claim_C8_amended hEmpty "NOAA 16" 7).1 (by decide)

/-- The timecode decoding exactly as the specification words it:
`msecs = ((w1 & 0x7F) << 20) | ((w2 & 0x3FF) << 10) | (w3 & 0x3FF)`,
and the delta is `day/2 - 1` days plus `msecs` milliseconds. -/
def specTimecodeMs (w0 w1 w2 w3 : Nat) : Nat :=
  let msecs := ((w1 &&& 127) <<< 20) ||| (((w2 &&& 1023) <<< 10) ||| (w3 &&& 1023))
  (w0 / 2 - 1) * 86400000 + msecs

/-- The closed form the `uint16` msecs accumulation collapses to: the
two `* 1024` steps wrap modulo 2^16, so the contribution of `w1`
vanishes entirely and only the low 6 bits of `w2` survive:
`msecs = (w2 % 64) * 1024 + w3 % 1024`, i.e.
`((w2 & 0x3F) << 10) | (w3 & 0x3FF)`. -/
theorem msecsWord_eq (w1 w2 w3 : Nat) :
    HRPT.msecsWord w1 w2 w3 = (w2 % 64) * 1024 + w3 % 1024 := by
  unfold HRPT.msecsWord
  dsimp only
  rw [Nat.and_comm 127 w1]
  simp only [show (127 : Nat) = 2 ^ 7 - 1 from by norm_num,
    show (1023 : Nat) = 2 ^ 10 - 1 from by norm_num,
    Nat.and_pow_two_sub_one_eq_mod]
  norm_num
  omega

/-- Claim C3 (code bug shown on the code): the claim (and the spec's
round-trip law, which needs msecs up to 86,399,999) states
`msecs = ((w1 & 0x7F) << 20) | ((w2 & 0x3FF) << 10) | (w3 & 0x3FF)`,
but the source computes msecs on numpy `uint16` scalars: the two
`* 1024` steps wrap modulo 2^16, every value of `w1` is irrelevant
(first conjunct), and what is computed is
`((w2 & 0x3F) << 10) | (w3 & 0x3FF) ≤ 65535` (second conjunct).  At
the timecode `(360, 41, 682, 341)` the claimed formula gives delta
179 days + 43,690,325 ms while the code produces 179 days + 43,349 ms
(remaining conjuncts). -/
theorem claim_C3_bug :
    (∀ w1 w1' w2 w3 : Nat,
      HRPT.timecodeMs 360 w1 682 341 = HRPT.timecodeMs 360 w1' 682 341 ∧
      HRPT.msecsWord w1 w2 w3 = (w2 % 64) * 1024 + w3 % 1024) ∧
    HRPT.timecodeMs 360 41 682 341 = 179 * 86400000 + 43349 ∧
    specTimecodeMs 360 41 682 341 = 179 * 86400000 + 43690325 ∧
    HRPT.timecodeMs 360 41 682 341 ≠ specTimecodeMs 360 41 682 341 := by
  refine ⟨?_, by rfl, by rfl, by decide⟩
  intro w1 w1' w2 w3
  constructor
  · unfold HRPT.timecodeMs
    rw [msecsWord_eq, msecsWord_eq]
  · exact msecsWord_eq w1 w2 w3

/-- Claim C9, counterexample: under a clock of January 10, 2026, a valid
code-7 frame whose timecode day word is 800 (a 399-day delta) gets the
previous-year fallback — Jan 1, 2025 + 399 days — which is early
February 2026 and still strictly in the future, yet the scanline is
produced and would be stored; the claimed invariant fails. -/
theorem claim_C9_counterexample :
    (HRPT.read elev0 2026 now9 futureBuf).map (fun p => p.1.map Scanline.utctime) =
      .ok [futureTs] ∧
    now9 < futureTs := by
  constructor
  · rfl
  · decide

/-- Auxiliary induction for `claim_C9_amended` over the parse loop. -/
theorem readFrom_utc_le (elev : Nat → Nat) (y nowMs : Int) (b : Buffer) :
    ∀ fuel f i,
      (∀ k, k < fuel → jan1ms (y - 1) + (HRPT.frameDelta b (f + k) : Int) ≤ nowMs) →
      ∀ e c, HRPT.readFrom elev y nowMs b fuel f i = .ok (e, c) →
        ∀ s ∈ e, s.utctime ≤ nowMs := by
  intro fuel
  induction fuel with
  | zero =>
    intro f i hdelta e c hok s hs
    simp only [HRPT.readFrom] at hok
    cases hok
    simp at hs
  | succ n ih =>
    intro f i hdelta e c hok s hs
    have hshift : ∀ k, k < n →
        jan1ms (y - 1) + (HRPT.frameDelta b (f + 1 + k) : Int) ≤ nowMs := by
      intro k hk
      have := hdelta (k + 1) (by omega)
      rwa [show f + (k + 1) = f + 1 + k by omega] at this
    simp only [HRPT.readFrom] at hok
    by_cases hsync : ¬ (HRPT.auxSyncOk b f && HRPT.frameSyncOk b f) = true
    · rw [if_pos hsync] at hok
      exact ih (f + 1) i hshift e c hok s hs
    · rw [if_neg hsync] at hok
      cases hsat : HRPT.satTable (HRPT.satCode b f) with
      | none => rw [hsat] at hok; cases hok
      | some sat =>
        rw [hsat] at hok
        cases hrec : HRPT.readFrom elev y nowMs b n (f + 1) (i + 1) with
        | error err => rw [hrec] at hok; cases hok
        | ok pr =>
          obtain ⟨rest, consumed⟩ := pr
          rw [hrec] at hok
          cases hok
          rw [List.mem_cons] at hs
          rcases hs with hs | hs
          · subst hs
            show HRPT.lineUtc y nowMs (HRPT.frameDelta b f) ≤ nowMs
            unfold HRPT.lineUtc
            dsimp only
            split
            · have := hdelta 0 (by omega)
              rwa [Nat.add_zero] at this
            · next hgt => exact le_of_not_lt hgt
          · exact ih (f + 1) (i + 1) hshift _ _ hrec s hs

/-- Claim C9, amended: a timestamp the parser produces is guaranteed not
to be in the future only when the frame's timecode delta does not
exceed the time elapsed since Jan 1 of the previous year; under that
bound on every frame of the buffer, every produced scanline satisfies
`utctime ≤ now` (the first candidate by the guard, the fallback by the
bound).  Without the bound the fallback can still land in the future
(`claim_C9_counterexample`), and the Holder performs no check of its
own. -/
theorem claim_C9_amended (elev : Nat → Nat) (y nowMs : Int) (b : Buffer)
    (hdelta : ∀ f, f < b.len / HRPT.lineSize →
      jan1ms (y - 1) + (HRPT.frameDelta b f : Int) ≤ nowMs) :
    ∀ e c, HRPT.read elev y nowMs b = .ok (e, c) →
      ∀ s ∈ e, s.utctime ≤ nowMs := by
  intro e c hok
  exact readFrom_utc_le elev y nowMs b (b.len / HRPT.lineSize) 0 0
    (fun k hk => by simpa using hdelta k hk) e c hok

/-- Witness for `claim_C9_amended`: the valid frame of `goodBuf` (day
360, i.e. 179 days) under a mid-July 2026 clock satisfies the delta
bound and its scanline's timestamp is not in the future. -/
theorem claim_C9_witness :
    HRPT.read elev0 2026 now200 goodBuf = .ok ([goodScan], 22180) ∧
    goodScan.utctime ≤ now200 := by
  have hread : HRPT.read elev0 2026 now200 goodBuf = .ok ([goodScan], 22180) := by
    rfl
  refine ⟨hread, ?_⟩
  exact claim_C9_amended elev0 2026 now200 goodBuf (by decide) [goodScan] 22180
    hread goodScan (by simp)

/-- Claim C6, counterexample: the claimed dispatch table says any
decodable message not matching the ping / request-scanline /
notice-scanline rows yields an `unknown` reply.  The decodable message
`badReq` (type request, empty data dict) matches none of those rows,
yet the code answers `error` — evaluating `message.data["type"]` raises
`KeyError` — and the serving loop terminates. -/
theorem claim_C6_counterexample :
    RequestManager.handleOne "subj" "st" h0 badReq = (errorMsg "subj", true) ∧
    errorMsg "subj" ≠ unknownMsg "subj" := by
  constructor
  · rfl
  · decide

/-- Claim C6, amended: one reply is sent per processed request, and the
dispatch follows the table — `ping` yields `pong {station}`;
request-scanline yields the binary scanline reply carrying the stored
payload when the Holder has the key and `missing` when the lookup
raises; notice-scanline yields `ack`; other message types, and request
or notice messages whose data carries a non-scanline type value, yield
`unknown` — except that a request or notice message whose data has no
"type" entry raises internally: the pre-initialized `error` reply is
sent and the serving loop then terminates. -/
theorem claim_C6_amended (subj station : String) (h : Holder) (m : Message) :
    (m.msgtype = "ping" →
      RequestManager.handleOne subj station h m =
        (RequestManager.pong subj station, false)) ∧
    (∀ satv t p, m.msgtype = "request" →
      m.data.getKey "type" = .ok (.s "scanline") →
      m.data.getKey "satellite" = .ok satv →
      m.data.getKey "utctime" = .ok (.t t) →
      h.getDataV satv t = .ok p →
      RequestManager.handleOne subj station h m =
        (⟨subj, "scanline", .payload p, true⟩, false)) ∧
    (∀ satv t, m.msgtype = "request" →
      m.data.getKey "type" = .ok (.s "scanline") →
      m.data.getKey "satellite" = .ok satv →
      m.data.getKey "utctime" = .ok (.t t) →
      h.getDataV satv t = .error () →
      RequestManager.handleOne subj station h m = (missingMsg subj, false)) ∧
    (m.msgtype = "notice" → m.data.getKey "type" = .ok (.s "scanline") →
      RequestManager.handleOne subj station h m = (ackMsg subj, false)) ∧
    (m.msgtype ≠ "ping" → m.msgtype ≠ "request" → m.msgtype ≠ "notice" →
      RequestManager.handleOne subj station h m = (unknownMsg subj, false)) ∧
    (∀ v, (m.msgtype = "request" ∨ m.msgtype = "notice") →
      m.data.getKey "type" = .ok v → v ≠ .s "scanline" →
      RequestManager.handleOne subj station h m = (unknownMsg subj, false)) ∧
    ((m.msgtype = "request" ∨ m.msgtype = "notice") →
      m.data.getKey "type" = .error () →
      RequestManager.handleOne subj station h m = (errorMsg subj, true)) ∧
    (∀ rest, RequestManager.serveLoop subj station h (some m :: rest) =
      (RequestManager.handleOne subj station h m).1 ::
        (if (RequestManager.handleOne subj station h m).2 then []
         else RequestManager.serveLoop subj station h rest)) := by
  refine ⟨?_, ?_, ?_, ?_, ?_, ?_, ?_, ?_⟩
  · intro hping
    simp [RequestManager.handleOne, RequestManager.dispatch, hping]
  · intro satv t p hty hkt hks hku hget
    simp [RequestManager.handleOne, RequestManager.dispatch,
      RequestManager.scanline, hty, hkt, hks, hku, hget, strpIsoformat]
  · intro satv t hty hkt hks hku hget
    simp [RequestManager.handleOne, RequestManager.dispatch,
      RequestManager.scanline, hty, hkt, hks, hku, hget, strpIsoformat,
      missingMsg]
  · intro hty hkt
    simp [RequestManager.handleOne, RequestManager.dispatch, hty, hkt, ackMsg]
  · intro h1 h2 h3
    simp [RequestManager.handleOne, RequestManager.dispatch, h1, h2, h3,
      unknownMsg]
  · intro v hty hkt hne
    rcases hty with hty | hty <;>
      simp [RequestManager.handleOne, RequestManager.dispatch, hty, hkt, hne,
        unknownMsg]
  · intro hty hkt
    rcases hty with hty | hty <;>
      simp [RequestManager.handleOne, RequestManager.dispatch, hty, hkt,
        errorMsg]
  · intro rest
    rfl

/-- Witness for `claim_C6_amended`: a ping is answered with the pong
carrying the station name, and the loop goes on. -/
theorem claim_C6_witness :
    RequestManager.handleOne "subj" "st" h0 pingMsg =
      (RequestManager.pong "subj" "st", false) :=
  (claim_C6_amended "subj" "st" h0 pingMsg).1 rfl

/-- Claim C10: string coercion of a lazy remote reference is exactly
`get_data()` — `__str__` returns it, `__add__` is `str(self) + other`,
`__radd__` is `other + str(self)` — so serializing a binary scanline
reply whose payload is an unmaterialized reference performs the remote
fetch inside the request manager's `send`, at message-serialization
time: the wire bytes are the text header followed by the fetched bytes,
and the scanline request to the mirror is emitted by that very call. -/
theorem claim_C10 (subj : String) (g : MirrorGetter) (r : RepMessage)
    (other bs : List Nat) :
    (MirrorGetter.strOf subj g r = MirrorGetter.get_data subj g r) ∧
    ((MirrorGetter.get_data subj g r).1.asStr = some bs →
      MirrorGetter.addOp subj g r other =
        (some (bs ++ other), (MirrorGetter.get_data subj g r).2.1,
         (MirrorGetter.get_data subj g r).2.2)) ∧
    ((MirrorGetter.get_data subj g r).1.asStr = some bs →
      MirrorGetter.raddOp subj other g r =
        (some (other ++ bs), (MirrorGetter.get_data subj g r).2.1,
         (MirrorGetter.get_data subj g r).2.2)) ∧
    (g.cache = RData.none → r.data = RData.bytes bs →
      RequestManager.send ⟨subj, "scanline", .payload (.remote g), true⟩ r =
        (some (headerBytes ⟨subj, "scanline", .payload (.remote g), true⟩ ++ bs),
         some (mirrorRequest subj g))) := by
  refine ⟨rfl, ?_, ?_, ?_⟩
  · intro hstr
    simp [MirrorGetter.addOp, MirrorGetter.strOf, hstr]
  · intro hstr
    simp [MirrorGetter.raddOp, MirrorGetter.strOf, hstr]
  · intro hc hr
    simp [RequestManager.send, encodeBinaryMsg, MirrorGetter.raddOp,
      MirrorGetter.strOf, MirrorGetter.get_data, hc, hr, RData.asStr]

/-- Witness for `claim_C10`: serializing the scanline reply holding the
unmaterialized `g0` while the peer answers with bytes [9, 9] sends the
header followed by those bytes and performs the fetch. -/
theorem claim_C10_witness :
    RequestManager.send ⟨"subj", "scanline", .payload (.remote g0), true⟩ scanReply =
      (some (headerBytes ⟨"subj", "scanline", .payload (.remote g0), true⟩ ++ [9, 9]),
       some (mirrorRequest "subj" g0)) :=
  (claim_C10 "subj" g0 scanReply [] [9, 9]).2.2.2 rfl rfl
